import Mathlib

/-!
Verification of the note session controller in
`src/notes_frontend/src/App.js` (Simple Notes App).

The controller is embedded as pure state-transition functions.  Each user
intent becomes a function from the session state (and the outcome of any
backend call it issues) to the new session state together with the list of
API calls issued during the intent.  React's `[selectedId]` effect (lines
56-75 of App.js) re-runs after any render in which `selectedId` changed,
so every intent that changes `selectedId` is followed by that effect; the
embedding threads it explicitly via `applyDetailEffect`.

JavaScript truthiness is modelled where the source relies on it: a numeric
id is "truthy" iff it is nonzero (`!selectedId`, `!detail?.id`), and a
string is "truthy" iff it is nonempty (`!form.title.trim()`).

Buttons rendered with `disabled={loading}` (New Note, Edit, Delete, the
submit button and the form inputs) cannot fire while a request is in
flight, so the corresponding intents are gated on `loading`; the note-list
buttons carry no `disabled` attribute, so select is not gated.
-/

set_option autoImplicit false

namespace NotesApp

/-- A note as exchanged with the backend: `{id, title, content}`. -/
structure Note where
  id : Nat
  title : String
  content : String
deriving DecidableEq

/-- Outcome of one backend call as seen by the controller: either the
parsed JSON value, or a thrown error (`fetchJSON` throws on any non-2xx
status or transport fault; the handlers ignore the error payload). -/
inductive ApiOutcome (α : Type) where
  | ok : α → ApiOutcome α
  | err : ApiOutcome α
deriving DecidableEq

/-- One HTTP request issued through `fetchJSON`. -/
inductive ApiCall where
  | list
  | get (id : Nat)
  | post (title content : String)
  | put (id : Nat) (title content : String)
  | delete (id : Nat)
deriving DecidableEq

/-- The session state owned by the `App` component: the React `useState`
hooks `notes`, `selectedId`, `detail`, `editMode`, `loading`, `error`
and `form = {title, content}`. -/
structure SessionState where
  notes : List Note
  selectedId : Option Nat
  detail : Option Note
  editMode : Bool
  loading : Bool
  error : String
  formTitle : String
  formContent : String
deriving DecidableEq

/-- The spec's three-valued mode, derived from the component state the
way `handleSave` branches on it: `detail && editMode` is Editing,
`!detail && editMode` is Creating, `!editMode` is Browsing. -/
inductive Mode where
  | Browsing
  | Creating
  | Editing
deriving DecidableEq

/-- JavaScript `String.prototype.trim`: strip leading and trailing
whitespace.  (Executable over the character list so that concrete states
evaluate by `decide`.) -/
def jsTrim (s : String) : String :=
  ⟨((s.data.dropWhile Char.isWhitespace).reverse.dropWhile Char.isWhitespace).reverse⟩

def mode (st : SessionState) : Mode :=
  if st.editMode then
    match st.detail with
    | some _ => Mode.Editing
    | none => Mode.Creating
  else Mode.Browsing

/-- The `[selectedId]` effect body (App.js lines 57-75), run against the
committed state: with no (truthy) selection it clears `detail` and leaves
edit mode; otherwise it fetches `GET /notes/{selectedId}`, storing the
note on success and setting the load error on failure. -/
def runDetailFetchEffect (st : SessionState) (r : ApiOutcome Note) :
    SessionState × List ApiCall :=
  match st.selectedId with
  | none => ({ st with detail := none, editMode := false }, [])
  | some i =>
    if i = 0 then ({ st with detail := none, editMode := false }, [])
    else
      match r with
      | .ok n =>
        ({ st with detail := some n, editMode := false, error := "", loading := false },
         [ApiCall.get i])
      | .err =>
        ({ st with error := "Failed to load note.", loading := false }, [ApiCall.get i])

/-- The `[selectedId]` effect re-runs only when `selectedId` changed from
the previously committed render (`oldSel`). -/
def applyDetailEffect (oldSel : Option Nat) (st : SessionState) (r : ApiOutcome Note) :
    SessionState × List ApiCall :=
  if st.selectedId = oldSel then (st, []) else runDetailFetchEffect st r

/-- Session start: initial hook values, then the mount effect
(App.js lines 42-54) fetching `GET /notes`; on success the list is stored
reversed, on failure the error is set and `notes` stays empty. -/
def sessionStart (r : ApiOutcome (List Note)) : SessionState × List ApiCall :=
  match r with
  | .ok data =>
    ({ notes := data.reverse, selectedId := none, detail := none, editMode := false,
       loading := false, error := "", formTitle := "", formContent := "" },
     [ApiCall.list])
  | .err =>
    ({ notes := [], selectedId := none, detail := none, editMode := false,
       loading := false, error := "Unable to load notes.", formTitle := "", formContent := "" },
     [ApiCall.list])

/-- Select-note intent: `handleSelect(i)` (lines 78-82) followed by the
`[selectedId]` effect when the selection actually changed.  The list
buttons are not disabled while loading, so there is no `loading` gate. -/
def selectIntent (st : SessionState) (i : Nat) (r : ApiOutcome Note) :
    SessionState × List ApiCall :=
  applyDetailEffect st.selectedId
    { st with selectedId := some i, formTitle := "", formContent := "", error := "" } r

/-- Start-create intent: `handleStartCreate` (lines 83-89), gated by the
New Note button's `disabled={loading}`.  The new selection is empty, so a
re-run of the `[selectedId]` effect takes its clear branch and never
fetches; the outcome argument of `applyDetailEffect` is unused there. -/
def startCreateIntent (st : SessionState) : SessionState × List ApiCall :=
  if st.loading then (st, [])
  else
    applyDetailEffect st.selectedId
      { st with
        selectedId := none, detail := none, editMode := true,
        formTitle := "", formContent := "", error := "" } ApiOutcome.err

/-- Start-edit intent: `handleEdit` (lines 90-95), gated by the Edit
button's `disabled={loading}`; a no-op without a loaded detail. -/
def editIntent (st : SessionState) : SessionState × List ApiCall :=
  if st.loading then (st, [])
  else
    match st.detail with
    | some d => ({ st with editMode := true, formTitle := d.title, formContent := d.content }, [])
    | none => (st, [])

/-- Field-edit intent for the title input: `handleChange` (lines 112-114);
the inputs carry `disabled={loading}`. -/
def changeTitleIntent (st : SessionState) (v : String) : SessionState × List ApiCall :=
  if st.loading then (st, []) else ({ st with formTitle := v }, [])

/-- Field-edit intent for the content textarea. -/
def changeContentIntent (st : SessionState) (v : String) : SessionState × List ApiCall :=
  if st.loading then (st, []) else ({ st with formContent := v }, [])

/-- Cancel intent: the Cancel button's onClick (lines 436-440), gated by
`disabled={loading}`; the form is blanked only when no detail is loaded. -/
def cancelIntent (st : SessionState) : SessionState × List ApiCall :=
  if st.loading then (st, [])
  else
    match st.detail with
    | none => ({ st with editMode := false, error := "", formTitle := "", formContent := "" }, [])
    | some _ => ({ st with editMode := false, error := "" }, [])

/-- Submit intent: `handleSave` (lines 116-153), gated by the submit
button's and the inputs' `disabled={loading}`.  After validation it PUTs
when `detail && editMode`, POSTs when `!detail && editMode`, and otherwise
only clears the form.  A successful save sets `selectedId` to the returned
note's id, so when that changes the selection the `[selectedId]` effect
re-runs and issues a follow-up `GET` with outcome `rfetch`. -/
def submitIntent (st : SessionState) (rsave : ApiOutcome Note) (rfetch : ApiOutcome Note) :
    SessionState × List ApiCall :=
  if st.loading then (st, [])
  else if jsTrim st.formTitle = "" ∨ jsTrim st.formContent = "" then
    ({ st with error := "Title and content cannot be empty." }, [])
  else
    match st.detail, st.editMode with
    | some d, true =>
      (match rsave with
       | .ok note =>
         let res := applyDetailEffect st.selectedId
           { st with
             notes := st.notes.map (fun m => if m.id = note.id then note else m),
             detail := some note, selectedId := some note.id,
             formTitle := "", formContent := "", editMode := false, error := "",
             loading := false } rfetch
         (res.1, ApiCall.put d.id st.formTitle st.formContent :: res.2)
       | .err =>
         ({ st with error := "Failed to save note.", loading := false },
          [ApiCall.put d.id st.formTitle st.formContent]))
    | none, true =>
      (match rsave with
       | .ok note =>
         let res := applyDetailEffect st.selectedId
           { st with
             notes := note :: st.notes, selectedId := some note.id,
             detail := some note, formTitle := "", formContent := "", editMode := false,
             error := "", loading := false } rfetch
         (res.1, ApiCall.post st.formTitle st.formContent :: res.2)
       | .err =>
         ({ st with error := "Failed to save note.", loading := false },
          [ApiCall.post st.formTitle st.formContent]))
    | _, false =>
      ({ st with
         formTitle := "", formContent := "", editMode := false, error := "",
         loading := false }, [])

/-- Delete intent: `handleDelete` (lines 96-111), gated by the Delete
button's `disabled={loading}`.  The guard `!detail?.id || !window.confirm`
aborts when no detail is loaded, when the id is the falsy `0`, or when the
user declines the confirmation dialog.  A successful delete clears the
selection, whereupon the `[selectedId]` effect re-runs its clear branch. -/
def deleteIntent (st : SessionState) (confirmed : Bool) (r : ApiOutcome Unit) :
    SessionState × List ApiCall :=
  if st.loading then (st, [])
  else
    match st.detail with
    | none => (st, [])
    | some d =>
      if d.id = 0 then (st, [])
      else if confirmed = false then (st, [])
      else
        match r with
        | .ok _ =>
          let res := applyDetailEffect st.selectedId
            { st with
              notes := st.notes.filter (fun n => n.id != d.id),
              selectedId := none, detail := none, editMode := false,
              formTitle := "", formContent := "", error := "", loading := false }
            ApiOutcome.err
          (res.1, ApiCall.delete d.id :: res.2)
        | .err =>
          ({ st with error := "Failed to delete note.", loading := false },
           [ApiCall.delete d.id])

/-- States reachable by some sequence of intents with arbitrary backend
outcomes, starting from session start. -/
inductive Reachable : SessionState → Prop where
  | start (r : ApiOutcome (List Note)) : Reachable (sessionStart r).1
  | select {st : SessionState} (i : Nat) (r : ApiOutcome Note) :
      Reachable st → Reachable (selectIntent st i r).1
  | startCreate {st : SessionState} :
      Reachable st → Reachable (startCreateIntent st).1
  | edit {st : SessionState} :
      Reachable st → Reachable (editIntent st).1
  | changeTitle {st : SessionState} (v : String) :
      Reachable st → Reachable (changeTitleIntent st v).1
  | changeContent {st : SessionState} (v : String) :
      Reachable st → Reachable (changeContentIntent st v).1
  | cancel {st : SessionState} :
      Reachable st → Reachable (cancelIntent st).1
  | submit {st : SessionState} (rsave rfetch : ApiOutcome Note) :
      Reachable st → Reachable (submitIntent st rsave rfetch).1
  | del {st : SessionState} (confirmed : Bool) (r : ApiOutcome Unit) :
      Reachable st → Reachable (deleteIntent st confirmed r).1

/-- States reachable when every select-note intent's detail fetch
succeeds (all other outcomes remain arbitrary). -/
inductive ReachableSelOk : SessionState → Prop where
  | start (r : ApiOutcome (List Note)) : ReachableSelOk (sessionStart r).1
  | select {st : SessionState} (i : Nat) (n : Note) :
      ReachableSelOk st → ReachableSelOk (selectIntent st i (ApiOutcome.ok n)).1
  | startCreate {st : SessionState} :
      ReachableSelOk st → ReachableSelOk (startCreateIntent st).1
  | edit {st : SessionState} :
      ReachableSelOk st → ReachableSelOk (editIntent st).1
  | changeTitle {st : SessionState} (v : String) :
      ReachableSelOk st → ReachableSelOk (changeTitleIntent st v).1
  | changeContent {st : SessionState} (v : String) :
      ReachableSelOk st → ReachableSelOk (changeContentIntent st v).1
  | cancel {st : SessionState} :
      ReachableSelOk st → ReachableSelOk (cancelIntent st).1
  | submit {st : SessionState} (rsave rfetch : ApiOutcome Note) :
      ReachableSelOk st → ReachableSelOk (submitIntent st rsave rfetch).1
  | del {st : SessionState} (confirmed : Bool) (r : ApiOutcome Unit) :
      ReachableSelOk st → ReachableSelOk (deleteIntent st confirmed r).1

/-- The non-definitional part of the spec's Creating invariant: whenever
the edit form is active with no loaded detail (the Creating mode), no
note is selected. -/
def CreatingNoSelection (st : SessionState) : Prop :=
  st.editMode = true → st.detail = none → st.selectedId = none

theorem mode_eq_creating_iff (st : SessionState) :
    mode st = Mode.Creating ↔ st.editMode = true ∧ st.detail = none := by
  unfold mode
  cases h : st.editMode <;> cases hd : st.detail <;> simp

theorem mode_eq_browsing_iff (st : SessionState) :
    mode st = Mode.Browsing ↔ st.editMode = false := by
  unfold mode
  cases h : st.editMode <;> cases hd : st.detail <;> simp

/-- C1: while a request is in flight (`pending = true`), invoking the
submit or the delete operation is a no-op: no API call is issued and the
session state is returned unchanged.  In the source the gate is the
`disabled={loading}` attribute on the submit and Delete buttons (and the
form inputs), which prevents the handlers from firing while `loading`. -/
theorem submit_delete_noop_while_pending (st : SessionState)
    (rsave rfetch : ApiOutcome Note) (confirmed : Bool) (rdel : ApiOutcome Unit)
    (h : st.loading = true) :
    submitIntent st rsave rfetch = (st, []) ∧
    deleteIntent st confirmed rdel = (st, []) := by
  constructor <;> simp [submitIntent, deleteIntent, h]

def pendingState : SessionState :=
  { notes := [], selectedId := none, detail := some ⟨1, "a", "b"⟩, editMode := false,
    loading := true, error := "", formTitle := "x", formContent := "y" }

theorem submit_delete_noop_while_pending_witness :
    submitIntent pendingState (ApiOutcome.ok ⟨2, "c", "d"⟩) ApiOutcome.err
      = (pendingState, []) ∧
    deleteIntent pendingState true (ApiOutcome.ok ()) = (pendingState, []) :=
  submit_delete_noop_while_pending pendingState (ApiOutcome.ok ⟨2, "c", "d"⟩)
    ApiOutcome.err true (ApiOutcome.ok ()) rfl

/-- C2 counterexample: a failed `listNotes()` at session start sets
`errorMessage` to `"Unable to load notes."` (App.js line 50), not
`"Could not load notes."` as the claim states. -/
theorem load_failure_message_counterexample :
    (sessionStart (ApiOutcome.err : ApiOutcome (List Note))).1.error
      ≠ "Could not load notes." := by
  decide

/-- C2 amended: when the `listNotes()` call at session start fails, the
controller sets `errorMessage` to exactly `"Unable to load notes."` and
leaves `notes` empty (and the session is in Browsing with no selection). -/
theorem load_failure_sets_unable_message :
    (sessionStart (ApiOutcome.err : ApiOutcome (List Note))).1.error
      = "Unable to load notes." ∧
    (sessionStart (ApiOutcome.err : ApiOutcome (List Note))).1.notes = [] ∧
    mode (sessionStart (ApiOutcome.err : ApiOutcome (List Note))).1 = Mode.Browsing ∧
    (sessionStart (ApiOutcome.err : ApiOutcome (List Note))).1.selectedId = none := by
  decide

/-- C4: submitting in Creating or Editing with a blank (after trim) title
or content issues no API call, sets the validation error message, and
leaves every other component of the state unchanged. -/
theorem validation_blocks_submit (st : SessionState) (rsave rfetch : ApiOutcome Note)
    (hl : st.loading = false)
    (hm : mode st = Mode.Creating ∨ mode st = Mode.Editing)
    (hv : jsTrim st.formTitle = "" ∨ jsTrim st.formContent = "") :
    (submitIntent st rsave rfetch).2 = [] ∧
    (submitIntent st rsave rfetch).1.error = "Title and content cannot be empty." ∧
    (submitIntent st rsave rfetch).1.notes = st.notes ∧
    (submitIntent st rsave rfetch).1.selectedId = st.selectedId ∧
    (submitIntent st rsave rfetch).1.detail = st.detail ∧
    mode (submitIntent st rsave rfetch).1 = mode st ∧
    (submitIntent st rsave rfetch).1.formTitle = st.formTitle ∧
    (submitIntent st rsave rfetch).1.formContent = st.formContent := by
  unfold submitIntent
  rw [if_neg (by simp [hl]), if_pos hv]
  simp [mode]

def blankTitleCreating : SessionState :=
  { notes := [], selectedId := none, detail := none, editMode := true,
    loading := false, error := "", formTitle := "  ", formContent := "body" }

theorem validation_blocks_submit_witness :
    (submitIntent blankTitleCreating ApiOutcome.err ApiOutcome.err).2 = [] ∧
    (submitIntent blankTitleCreating ApiOutcome.err ApiOutcome.err).1.error
      = "Title and content cannot be empty." ∧
    (submitIntent blankTitleCreating ApiOutcome.err ApiOutcome.err).1.notes
      = blankTitleCreating.notes ∧
    (submitIntent blankTitleCreating ApiOutcome.err ApiOutcome.err).1.selectedId
      = blankTitleCreating.selectedId ∧
    (submitIntent blankTitleCreating ApiOutcome.err ApiOutcome.err).1.detail
      = blankTitleCreating.detail ∧
    mode (submitIntent blankTitleCreating ApiOutcome.err ApiOutcome.err).1
      = mode blankTitleCreating ∧
    (submitIntent blankTitleCreating ApiOutcome.err ApiOutcome.err).1.formTitle
      = blankTitleCreating.formTitle ∧
    (submitIntent blankTitleCreating ApiOutcome.err ApiOutcome.err).1.formContent
      = blankTitleCreating.formContent :=
  validation_blocks_submit blankTitleCreating ApiOutcome.err ApiOutcome.err rfl
    (Or.inl (by decide)) (Or.inl (by decide))

/-- C8: a successful `listNotes()` at session start stores the served
sequence reversed (newest first) and clears the error message. -/
theorem session_start_reverses_list (s : List Note) :
    (sessionStart (ApiOutcome.ok s)).1.notes = s.reverse ∧
    (sessionStart (ApiOutcome.ok s)).1.error = "" := by
  simp [sessionStart]

/-- C10: submitting outside Creating and Editing (edit form inactive,
`editMode = false`) with valid fields issues no API call and leaves
`notes`, `selectedId` and `detail` unchanged, yet clears both form fields
and the error message (App.js lines 146-148 run with neither save branch
taken). -/
theorem browsing_submit_clears_form (st : SessionState) (rsave rfetch : ApiOutcome Note)
    (hl : st.loading = false) (hm : mode st = Mode.Browsing)
    (ht : jsTrim st.formTitle ≠ "") (hc : jsTrim st.formContent ≠ "") :
    (submitIntent st rsave rfetch).2 = [] ∧
    (submitIntent st rsave rfetch).1.notes = st.notes ∧
    (submitIntent st rsave rfetch).1.selectedId = st.selectedId ∧
    (submitIntent st rsave rfetch).1.detail = st.detail ∧
    (submitIntent st rsave rfetch).1.formTitle = "" ∧
    (submitIntent st rsave rfetch).1.formContent = "" ∧
    (submitIntent st rsave rfetch).1.error = "" := by
  have hE : st.editMode = false := (mode_eq_browsing_iff st).1 hm
  unfold submitIntent
  rw [if_neg (by simp [hl]), if_neg (by simp [ht, hc])]
  rcases hd : st.detail with _ | d <;> simp [hd, hE]

def browsingFilled : SessionState :=
  { notes := [⟨1, "a", "b"⟩], selectedId := some 1, detail := some ⟨1, "a", "b"⟩,
    editMode := false, loading := false, error := "boom", formTitle := "t",
    formContent := "c" }

theorem browsing_submit_clears_form_witness :
    (submitIntent browsingFilled ApiOutcome.err ApiOutcome.err).2 = [] ∧
    (submitIntent browsingFilled ApiOutcome.err ApiOutcome.err).1.notes
      = browsingFilled.notes ∧
    (submitIntent browsingFilled ApiOutcome.err ApiOutcome.err).1.selectedId
      = browsingFilled.selectedId ∧
    (submitIntent browsingFilled ApiOutcome.err ApiOutcome.err).1.detail
      = browsingFilled.detail ∧
    (submitIntent browsingFilled ApiOutcome.err ApiOutcome.err).1.formTitle = "" ∧
    (submitIntent browsingFilled ApiOutcome.err ApiOutcome.err).1.formContent = "" ∧
    (submitIntent browsingFilled ApiOutcome.err ApiOutcome.err).1.error = "" :=
  browsing_submit_clears_form browsingFilled ApiOutcome.err ApiOutcome.err rfl
    (by decide) (by decide) (by decide)

/-- C3 counterexample: selecting note 2 while note 1's detail is loaded,
with the fetch for note 2 failing, leaves the stale detail of note 1 in
place — `detail` is not `none` as the claim states (the failure branch of
the `[selectedId]` effect never calls `setDetail`). -/
theorem select_fail_stale_detail_counterexample :
    ((selectIntent
        (selectIntent (sessionStart (ApiOutcome.ok [⟨1, "a", "b"⟩, ⟨2, "c", "d"⟩])).1
          1 (ApiOutcome.ok ⟨1, "a", "b"⟩)).1
        2 ApiOutcome.err).1.detail ≠ none) := by
  decide

/-- C3 amended: when a select-note(i) intent issues a `getNote(i)` call
(truthy id, different from the current selection) and that call fails,
`detail` is left unchanged — it retains a previously loaded detail, and is
`none` only if it already was — while `errorMessage` becomes
`"Failed to load note."` and `selectedId` equals the requested id. -/
theorem select_fail_preserves_detail (st : SessionState) (i : Nat)
    (hi : i ≠ 0) (hsel : st.selectedId ≠ some i) :
    (selectIntent st i ApiOutcome.err).1.detail = st.detail ∧
    (selectIntent st i ApiOutcome.err).1.error = "Failed to load note." ∧
    (selectIntent st i ApiOutcome.err).1.selectedId = some i ∧
    (selectIntent st i ApiOutcome.err).2 = [ApiCall.get i] := by
  unfold selectIntent applyDetailEffect runDetailFetchEffect
  rw [if_neg (by simpa using fun h => hsel h.symm)]
  simp [hi]

def viewingNoteOne : SessionState :=
  { notes := [⟨2, "c", "d"⟩, ⟨1, "a", "b"⟩], selectedId := some 1,
    detail := some ⟨1, "a", "b"⟩, editMode := false, loading := false,
    error := "", formTitle := "", formContent := "" }

theorem select_fail_preserves_detail_witness :
    (selectIntent viewingNoteOne 2 ApiOutcome.err).1.detail = viewingNoteOne.detail ∧
    (selectIntent viewingNoteOne 2 ApiOutcome.err).1.error = "Failed to load note." ∧
    (selectIntent viewingNoteOne 2 ApiOutcome.err).1.selectedId = some 2 ∧
    (selectIntent viewingNoteOne 2 ApiOutcome.err).2 = [ApiCall.get 2] :=
  select_fail_preserves_detail viewingNoteOne 2 (by decide) (by decide)

def filledCreating : SessionState :=
  (changeContentIntent
    (changeTitleIntent (startCreateIntent (sessionStart ApiOutcome.err).1).1 "A").1
    "B").1

/-- C5 counterexample: a successful create sets `selectedId` to the new
note's id, which re-runs the `[selectedId]` effect and issues a follow-up
`GET /notes/{id}`; when that follow-up fetch fails, the settled state has
`errorMessage = "Failed to load note."`, not the empty string the claim
requires. -/
theorem create_refetch_failure_counterexample :
    (submitIntent filledCreating (ApiOutcome.ok ⟨9, "A", "B"⟩) ApiOutcome.err).1.error
      ≠ "" := by
  decide

/-- C5 amended: for a submit in Creating (no selection) with valid form
fields, when `createNote` returns a note `n` with truthy id and the
follow-up detail fetch (issued because `selectedId` changed to `n.id`)
also returns `n`, the settled state has `n` prepended to `notes`,
`selectedId = n.id`, `detail = n`, both form fields empty, mode Browsing
and an empty error message; the calls issued are the POST followed by the
follow-up GET. -/
theorem create_success_state (st : SessionState) (n : Note)
    (hl : st.loading = false) (hm : mode st = Mode.Creating)
    (hsel : st.selectedId = none)
    (ht : jsTrim st.formTitle ≠ "") (hc : jsTrim st.formContent ≠ "")
    (hid : n.id ≠ 0) :
    (submitIntent st (ApiOutcome.ok n) (ApiOutcome.ok n)).1.notes = n :: st.notes ∧
    (submitIntent st (ApiOutcome.ok n) (ApiOutcome.ok n)).1.selectedId = some n.id ∧
    (submitIntent st (ApiOutcome.ok n) (ApiOutcome.ok n)).1.detail = some n ∧
    (submitIntent st (ApiOutcome.ok n) (ApiOutcome.ok n)).1.formTitle = "" ∧
    (submitIntent st (ApiOutcome.ok n) (ApiOutcome.ok n)).1.formContent = "" ∧
    mode (submitIntent st (ApiOutcome.ok n) (ApiOutcome.ok n)).1 = Mode.Browsing ∧
    (submitIntent st (ApiOutcome.ok n) (ApiOutcome.ok n)).1.error = "" ∧
    (submitIntent st (ApiOutcome.ok n) (ApiOutcome.ok n)).2
      = [ApiCall.post st.formTitle st.formContent, ApiCall.get n.id] := by
  obtain ⟨hE, hd⟩ := (mode_eq_creating_iff st).1 hm
  unfold submitIntent applyDetailEffect runDetailFetchEffect
  rw [if_neg (by simp [hl]), if_neg (by simp [ht, hc])]
  simp [hd, hE, hsel, hid, mode]

theorem create_success_state_witness :
    (submitIntent filledCreating (ApiOutcome.ok ⟨9, "A", "B"⟩)
        (ApiOutcome.ok ⟨9, "A", "B"⟩)).1.notes = ⟨9, "A", "B"⟩ :: filledCreating.notes ∧
    (submitIntent filledCreating (ApiOutcome.ok ⟨9, "A", "B"⟩)
        (ApiOutcome.ok ⟨9, "A", "B"⟩)).1.selectedId = some (9 : Nat) ∧
    (submitIntent filledCreating (ApiOutcome.ok ⟨9, "A", "B"⟩)
        (ApiOutcome.ok ⟨9, "A", "B"⟩)).1.detail = some ⟨9, "A", "B"⟩ ∧
    (submitIntent filledCreating (ApiOutcome.ok ⟨9, "A", "B"⟩)
        (ApiOutcome.ok ⟨9, "A", "B"⟩)).1.formTitle = "" ∧
    (submitIntent filledCreating (ApiOutcome.ok ⟨9, "A", "B"⟩)
        (ApiOutcome.ok ⟨9, "A", "B"⟩)).1.formContent = "" ∧
    mode (submitIntent filledCreating (ApiOutcome.ok ⟨9, "A", "B"⟩)
        (ApiOutcome.ok ⟨9, "A", "B"⟩)).1 = Mode.Browsing ∧
    (submitIntent filledCreating (ApiOutcome.ok ⟨9, "A", "B"⟩)
        (ApiOutcome.ok ⟨9, "A", "B"⟩)).1.error = "" ∧
    (submitIntent filledCreating (ApiOutcome.ok ⟨9, "A", "B"⟩)
        (ApiOutcome.ok ⟨9, "A", "B"⟩)).2
      = [ApiCall.post filledCreating.formTitle filledCreating.formContent,
         ApiCall.get 9] :=
  create_success_state filledCreating ⟨9, "A", "B"⟩ (by decide) (by decide) (by decide)
    (by decide) (by decide) (by decide)

/-- A reachable Editing state whose selection does not cohere with the
loaded detail: select note 1 (detail loads), select note 2 with a failing
fetch (the stale detail of note 1 survives, `selectedId = 2`), then start
editing. -/
def staleEditing : SessionState :=
  (editIntent
    (selectIntent
      (selectIntent (sessionStart (ApiOutcome.ok [⟨1, "a", "b"⟩, ⟨2, "c", "d"⟩])).1
        1 (ApiOutcome.ok ⟨1, "a", "b"⟩)).1
      2 ApiOutcome.err).1).1

/-- C6 counterexample: from the reachable Editing state `staleEditing`
(no request pending, both trimmed form fields non-empty) a submit whose
`updateNote` succeeds runs `setSelectedId(note.id)` (App.js line 135),
changing `selectedId` from 2 to 1 — so "selectedId unchanged" fails —
and that selection change re-runs the `[selectedId]` effect, issuing a
follow-up GET whose failure leaves `errorMessage = "Failed to load
note."` — so "errorMessage empty" fails as well. -/
theorem edit_stale_selection_counterexample :
    Reachable staleEditing ∧
    mode staleEditing = Mode.Editing ∧
    staleEditing.loading = false ∧
    jsTrim staleEditing.formTitle ≠ "" ∧
    jsTrim staleEditing.formContent ≠ "" ∧
    (submitIntent staleEditing (ApiOutcome.ok ⟨1, "a2", "b2"⟩) ApiOutcome.err).1.selectedId
      ≠ staleEditing.selectedId ∧
    (submitIntent staleEditing (ApiOutcome.ok ⟨1, "a2", "b2"⟩) ApiOutcome.err).1.error
      ≠ "" :=
  ⟨Reachable.edit (Reachable.select 2 ApiOutcome.err
      (Reachable.select 1 (ApiOutcome.ok ⟨1, "a", "b"⟩)
        (Reachable.start (ApiOutcome.ok [⟨1, "a", "b"⟩, ⟨2, "c", "d"⟩])))),
   by decide, by decide, by decide, by decide, by decide, by decide⟩

/-- C6 amended: for a submit in Editing with valid form fields, issued
from a state whose selection coheres with the loaded detail
(`selectedId = detail.id` — a coherence a failed select can break, see
the counterexample), when `updateNote` returns a note `n` carrying the
same id, the entry with that id is replaced in place in `notes` (length
and positions of all other entries unchanged), `detail` becomes `n`,
`selectedId` is unchanged, mode returns to Browsing, the form is cleared
and the error message is empty; the only call issued is the PUT. -/
theorem edit_success_replaces_in_place (st : SessionState) (d n : Note)
    (rfetch : ApiOutcome Note)
    (hl : st.loading = false) (hE : st.editMode = true) (hd : st.detail = some d)
    (hsel : st.selectedId = some d.id) (hid : n.id = d.id)
    (ht : jsTrim st.formTitle ≠ "") (hc : jsTrim st.formContent ≠ "") :
    (submitIntent st (ApiOutcome.ok n) rfetch).1.notes
      = st.notes.map (fun m => if m.id = n.id then n else m) ∧
    (submitIntent st (ApiOutcome.ok n) rfetch).1.notes.length = st.notes.length ∧
    (submitIntent st (ApiOutcome.ok n) rfetch).1.detail = some n ∧
    (submitIntent st (ApiOutcome.ok n) rfetch).1.selectedId = st.selectedId ∧
    mode (submitIntent st (ApiOutcome.ok n) rfetch).1 = Mode.Browsing ∧
    (submitIntent st (ApiOutcome.ok n) rfetch).1.formTitle = "" ∧
    (submitIntent st (ApiOutcome.ok n) rfetch).1.formContent = "" ∧
    (submitIntent st (ApiOutcome.ok n) rfetch).1.error = "" ∧
    (submitIntent st (ApiOutcome.ok n) rfetch).2
      = [ApiCall.put d.id st.formTitle st.formContent] := by
  unfold submitIntent applyDetailEffect
  rw [if_neg (by simp [hl]), if_neg (by simp [ht, hc])]
  simp [hd, hE, hsel, hid, mode]

def editingNoteOne : SessionState :=
  (editIntent viewingNoteOne).1

theorem edit_success_replaces_in_place_witness :
    (submitIntent editingNoteOne (ApiOutcome.ok ⟨1, "a2", "b2"⟩) ApiOutcome.err).1.notes
      = editingNoteOne.notes.map
          (fun m => if m.id = Note.id ⟨1, "a2", "b2"⟩ then ⟨1, "a2", "b2"⟩ else m) ∧
    (submitIntent editingNoteOne (ApiOutcome.ok ⟨1, "a2", "b2"⟩)
        ApiOutcome.err).1.notes.length = editingNoteOne.notes.length ∧
    (submitIntent editingNoteOne (ApiOutcome.ok ⟨1, "a2", "b2"⟩) ApiOutcome.err).1.detail
      = some ⟨1, "a2", "b2"⟩ ∧
    (submitIntent editingNoteOne (ApiOutcome.ok ⟨1, "a2", "b2"⟩)
        ApiOutcome.err).1.selectedId = editingNoteOne.selectedId ∧
    mode (submitIntent editingNoteOne (ApiOutcome.ok ⟨1, "a2", "b2"⟩) ApiOutcome.err).1
      = Mode.Browsing ∧
    (submitIntent editingNoteOne (ApiOutcome.ok ⟨1, "a2", "b2"⟩)
        ApiOutcome.err).1.formTitle = "" ∧
    (submitIntent editingNoteOne (ApiOutcome.ok ⟨1, "a2", "b2"⟩)
        ApiOutcome.err).1.formContent = "" ∧
    (submitIntent editingNoteOne (ApiOutcome.ok ⟨1, "a2", "b2"⟩) ApiOutcome.err).1.error
      = "" ∧
    (submitIntent editingNoteOne (ApiOutcome.ok ⟨1, "a2", "b2"⟩) ApiOutcome.err).2
      = [ApiCall.put (Note.id ⟨1, "a", "b"⟩) editingNoteOne.formTitle
           editingNoteOne.formContent] :=
  edit_success_replaces_in_place editingNoteOne ⟨1, "a", "b"⟩ ⟨1, "a2", "b2"⟩
    ApiOutcome.err (by decide) (by decide) (by decide) (by decide) (by decide)
    (by decide) (by decide)

/-- C7: for a delete intent issued with detail `d` loaded (truthy id,
confirmation given): on success the entry with `d.id` is removed from
`notes`, the selection and detail are cleared, mode returns to Browsing,
the form is blank and the error message empty; on failure the error
message becomes `"Failed to delete note."` and every other component —
`notes`, `selectedId`, `detail`, mode, both form fields — is unchanged. -/
theorem delete_success_and_failure (st : SessionState) (d : Note)
    (hl : st.loading = false) (hd : st.detail = some d) (hid : d.id ≠ 0) :
    ((deleteIntent st true (ApiOutcome.ok ())).1.notes
        = st.notes.filter (fun n => n.id != d.id) ∧
     (deleteIntent st true (ApiOutcome.ok ())).1.selectedId = none ∧
     (deleteIntent st true (ApiOutcome.ok ())).1.detail = none ∧
     mode (deleteIntent st true (ApiOutcome.ok ())).1 = Mode.Browsing ∧
     (deleteIntent st true (ApiOutcome.ok ())).1.formTitle = "" ∧
     (deleteIntent st true (ApiOutcome.ok ())).1.formContent = "" ∧
     (deleteIntent st true (ApiOutcome.ok ())).1.error = "" ∧
     (deleteIntent st true (ApiOutcome.ok ())).2 = [ApiCall.delete d.id]) ∧
    ((deleteIntent st true ApiOutcome.err).1.error = "Failed to delete note." ∧
     (deleteIntent st true ApiOutcome.err).1.notes = st.notes ∧
     (deleteIntent st true ApiOutcome.err).1.selectedId = st.selectedId ∧
     (deleteIntent st true ApiOutcome.err).1.detail = st.detail ∧
     mode (deleteIntent st true ApiOutcome.err).1 = mode st ∧
     (deleteIntent st true ApiOutcome.err).1.formTitle = st.formTitle ∧
     (deleteIntent st true ApiOutcome.err).1.formContent = st.formContent ∧
     (deleteIntent st true ApiOutcome.err).2 = [ApiCall.delete d.id]) := by
  unfold deleteIntent applyDetailEffect runDetailFetchEffect
  rw [if_neg (by simp [hl]), if_neg (by simp [hl])]
  constructor
  · rcases hs : st.selectedId with _ | j <;> simp [hd, hid, hs, mode]
  · simp [hd, hid, mode]

theorem delete_success_and_failure_witness :
    ((deleteIntent viewingNoteOne true (ApiOutcome.ok ())).1.notes
        = viewingNoteOne.notes.filter (fun n => n.id != Note.id ⟨1, "a", "b"⟩) ∧
     (deleteIntent viewingNoteOne true (ApiOutcome.ok ())).1.selectedId = none ∧
     (deleteIntent viewingNoteOne true (ApiOutcome.ok ())).1.detail = none ∧
     mode (deleteIntent viewingNoteOne true (ApiOutcome.ok ())).1 = Mode.Browsing ∧
     (deleteIntent viewingNoteOne true (ApiOutcome.ok ())).1.formTitle = "" ∧
     (deleteIntent viewingNoteOne true (ApiOutcome.ok ())).1.formContent = "" ∧
     (deleteIntent viewingNoteOne true (ApiOutcome.ok ())).1.error = "" ∧
     (deleteIntent viewingNoteOne true (ApiOutcome.ok ())).2
        = [ApiCall.delete (Note.id ⟨1, "a", "b"⟩)]) ∧
    ((deleteIntent viewingNoteOne true ApiOutcome.err).1.error
        = "Failed to delete note." ∧
     (deleteIntent viewingNoteOne true ApiOutcome.err).1.notes = viewingNoteOne.notes ∧
     (deleteIntent viewingNoteOne true ApiOutcome.err).1.selectedId
        = viewingNoteOne.selectedId ∧
     (deleteIntent viewingNoteOne true ApiOutcome.err).1.detail
        = viewingNoteOne.detail ∧
     mode (deleteIntent viewingNoteOne true ApiOutcome.err).1 = mode viewingNoteOne ∧
     (deleteIntent viewingNoteOne true ApiOutcome.err).1.formTitle
        = viewingNoteOne.formTitle ∧
     (deleteIntent viewingNoteOne true ApiOutcome.err).1.formContent
        = viewingNoteOne.formContent ∧
     (deleteIntent viewingNoteOne true ApiOutcome.err).2
        = [ApiCall.delete (Note.id ⟨1, "a", "b"⟩)]) :=
  delete_success_and_failure viewingNoteOne ⟨1, "a", "b"⟩ (by decide) (by decide)
    (by decide)

theorem inv_sessionStart (r : ApiOutcome (List Note)) :
    CreatingNoSelection (sessionStart r).1 := by
  cases r <;> simp [sessionStart, CreatingNoSelection]

theorem inv_select_ok (i : Nat) (n : Note) {st : SessionState}
    (h : CreatingNoSelection st) :
    CreatingNoSelection (selectIntent st i (ApiOutcome.ok n)).1 := by
  obtain ⟨notes, sel, det, em, ld, err, ft, fc⟩ := st
  unfold CreatingNoSelection at h ⊢
  unfold selectIntent applyDetailEffect runDetailFetchEffect
  split <;> simp_all <;> split <;> simp_all

theorem inv_startCreate {st : SessionState} (h : CreatingNoSelection st) :
    CreatingNoSelection (startCreateIntent st).1 := by
  obtain ⟨notes, sel, det, em, ld, err, ft, fc⟩ := st
  unfold CreatingNoSelection at h ⊢
  unfold startCreateIntent applyDetailEffect runDetailFetchEffect
  cases ld <;> simp_all <;> split <;> simp_all

theorem inv_edit {st : SessionState} (h : CreatingNoSelection st) :
    CreatingNoSelection (editIntent st).1 := by
  obtain ⟨notes, sel, det, em, ld, err, ft, fc⟩ := st
  unfold CreatingNoSelection at h ⊢
  unfold editIntent
  cases ld <;> cases det <;> simp_all

theorem inv_changeTitle (v : String) {st : SessionState}
    (h : CreatingNoSelection st) :
    CreatingNoSelection (changeTitleIntent st v).1 := by
  obtain ⟨notes, sel, det, em, ld, err, ft, fc⟩ := st
  unfold CreatingNoSelection at h ⊢
  unfold changeTitleIntent
  cases ld <;> simp_all

theorem inv_changeContent (v : String) {st : SessionState}
    (h : CreatingNoSelection st) :
    CreatingNoSelection (changeContentIntent st v).1 := by
  obtain ⟨notes, sel, det, em, ld, err, ft, fc⟩ := st
  unfold CreatingNoSelection at h ⊢
  unfold changeContentIntent
  cases ld <;> simp_all

theorem inv_cancel {st : SessionState} (h : CreatingNoSelection st) :
    CreatingNoSelection (cancelIntent st).1 := by
  obtain ⟨notes, sel, det, em, ld, err, ft, fc⟩ := st
  unfold CreatingNoSelection at h ⊢
  unfold cancelIntent
  cases ld <;> cases det <;> simp_all

theorem inv_submit (rsave rfetch : ApiOutcome Note) {st : SessionState}
    (h : CreatingNoSelection st) :
    CreatingNoSelection (submitIntent st rsave rfetch).1 := by
  obtain ⟨notes, sel, det, em, ld, err, ft, fc⟩ := st
  unfold CreatingNoSelection at h ⊢
  unfold submitIntent applyDetailEffect runDetailFetchEffect
  dsimp only at h ⊢
  cases ld
  · by_cases hv : jsTrim ft = "" ∨ jsTrim fc = ""
    · rw [if_neg (by simp), if_pos hv]
      exact h
    · rw [if_neg (by simp), if_neg hv]
      cases em
      · cases det <;> exact fun hE _ => absurd hE (by simp)
      · cases det with
        | none =>
          cases rsave with
          | err => exact h
          | ok note =>
            dsimp only
            by_cases hsel : some note.id = sel
            · rw [if_pos hsel]
              exact fun hE _ => absurd hE (by simp)
            · rw [if_neg hsel]
              by_cases hz : note.id = 0
              · rw [if_pos hz]
                exact fun hE _ => absurd hE (by simp)
              · rw [if_neg hz]
                cases rfetch <;> exact fun hE _ => absurd hE (by simp)
        | some d =>
          cases rsave with
          | err => exact fun _ hD => absurd hD (by simp)
          | ok note =>
            dsimp only
            by_cases hsel : some note.id = sel
            · rw [if_pos hsel]
              exact fun hE _ => absurd hE (by simp)
            · rw [if_neg hsel]
              by_cases hz : note.id = 0
              · rw [if_pos hz]
                exact fun hE _ => absurd hE (by simp)
              · rw [if_neg hz]
                cases rfetch <;> exact fun hE _ => absurd hE (by simp)
  · rw [if_pos rfl]
    exact h

theorem inv_delete (confirmed : Bool) (r : ApiOutcome Unit) {st : SessionState}
    (h : CreatingNoSelection st) :
    CreatingNoSelection (deleteIntent st confirmed r).1 := by
  obtain ⟨notes, sel, det, em, ld, err, ft, fc⟩ := st
  unfold CreatingNoSelection at h ⊢
  unfold deleteIntent applyDetailEffect runDetailFetchEffect
  cases ld <;> cases det <;> cases confirmed <;> cases r <;>
    (try simp_all) <;> (try (split <;> try simp_all)) <;>
    (try (split <;> try simp_all)) <;> (try simp_all)

/-- C9 counterexample: start create from a fresh session, then select
note 1 with a failing detail fetch.  The resulting state is reachable,
is in Creating mode (`editMode` true, no detail — the failure branch of
the `[selectedId]` effect resets neither), yet has `selectedId = some 1`,
contradicting the claimed invariant. -/
theorem creating_selection_counterexample :
    Reachable
      (selectIntent (startCreateIntent (sessionStart ApiOutcome.err).1).1
        1 ApiOutcome.err).1 ∧
    mode (selectIntent (startCreateIntent (sessionStart ApiOutcome.err).1).1
        1 ApiOutcome.err).1 = Mode.Creating ∧
    (selectIntent (startCreateIntent (sessionStart ApiOutcome.err).1).1
        1 ApiOutcome.err).1.selectedId ≠ none :=
  ⟨Reachable.select 1 ApiOutcome.err
      (Reachable.startCreate (Reachable.start ApiOutcome.err)),
   by decide, by decide⟩

/-- C9 amended: in every state reachable by a sequence of intents in
which every select-note detail fetch succeeds (all other outcomes
arbitrary), `mode = Creating` implies that `selectedId` is none and
`detail` is none.  The unrestricted claim fails: a select-note intent
issued while in Creating whose fetch fails leaves the form active with a
selection set. -/
theorem creating_implies_no_selection (st : SessionState)
    (h : ReachableSelOk st) (hm : mode st = Mode.Creating) :
    st.selectedId = none ∧ st.detail = none := by
  have hcns : CreatingNoSelection st := by
    clear hm
    induction h with
    | start r => exact inv_sessionStart r
    | select i n _ ih => exact inv_select_ok i n ih
    | startCreate _ ih => exact inv_startCreate ih
    | edit _ ih => exact inv_edit ih
    | changeTitle v _ ih => exact inv_changeTitle v ih
    | changeContent v _ ih => exact inv_changeContent v ih
    | cancel _ ih => exact inv_cancel ih
    | submit rsave rfetch _ ih => exact inv_submit rsave rfetch ih
    | del confirmed r _ ih => exact inv_delete confirmed r ih
  obtain ⟨hE, hD⟩ := (mode_eq_creating_iff st).1 hm
  exact ⟨hcns hE hD, hD⟩

theorem creating_implies_no_selection_witness :
    (startCreateIntent (sessionStart (ApiOutcome.ok [⟨1, "a", "b"⟩])).1).1.selectedId
      = none ∧
    (startCreateIntent (sessionStart (ApiOutcome.ok [⟨1, "a", "b"⟩])).1).1.detail
      = none :=
  creating_implies_no_selection _
    (ReachableSelOk.startCreate (ReachableSelOk.start (ApiOutcome.ok [⟨1, "a", "b"⟩])))
    (by decide)

end NotesApp
